import Mathlib

/-!
Shallow embedding of the camilladsp configuration validator (`src/config.rs`)
and the audio chunk data model (`src/audiodevice.rs`).

Conventions of the embedding:
* Rust `usize` becomes `Nat` (the validator only compares and copies counts,
  it never overflows them).
* `PrcFmt` (an alias for `f64` in the source) becomes `Rat`; sample and gain
  values are only carried around by the code modelled here, never computed
  with, so any type with decidable equality is a faithful carrier.
* `std::time::Instant` becomes an abstract tick (`Nat`); `Instant::now()` is
  an effect, so the caller of `AudioChunk.new` passes the current tick in.
* `HashMap<String, V>` becomes an association list `List (String × V)` with
  lookup by string equality; the source's `contains_key` followed by
  `get(..).unwrap()` becomes a single `match` on the lookup result.
* `Result<T, Box<dyn Error>>` becomes `Except ConfigError T`; the formatted
  error strings of the source become structured constructors carrying the
  same data, and `ConfigError.desc` renders the exact source format strings.
-/

/-- Embeds the source alias `PrcFmt` (`f64`); values are carried, never
computed with, in the code modelled here. -/
abbrev PrcFmt := Rat

namespace config

/-- Embeds `enum SampleFormat` of `config.rs`. -/
inductive SampleFormat where
  | S16LE
  | S24LE
  | S32LE
deriving DecidableEq, Repr

/-- Embeds `enum Device` of `config.rs`; the `alsa-backend` and
`pulse-backend` feature-gated variants are included. -/
inductive Device where
  | Alsa (channels : Nat) (device : String) (format : SampleFormat)
  | Pulse (channels : Nat) (device : String) (format : SampleFormat)
  | File (channels : Nat) (filename : String) (format : SampleFormat)
deriving DecidableEq, Repr

/-- Embeds `struct Devices` of `config.rs`. -/
structure Devices where
  samplerate : Nat
  buffersize : Nat
  silence_threshold : PrcFmt
  silence_timeout : PrcFmt
  capture : Device
  playback : Device
deriving DecidableEq, Repr

/-- Embeds `enum ConvParameters` of `config.rs`. -/
inductive ConvParameters where
  | File (filename : String)
  | Values (values : List PrcFmt)
deriving DecidableEq, Repr

/-- Embeds `enum BiquadParameters` of `config.rs`. -/
inductive BiquadParameters where
  | Free (a1 a2 b0 b1 b2 : PrcFmt)
  | Highpass (freq q : PrcFmt)
  | Lowpass (freq q : PrcFmt)
  | Peaking (freq gain q : PrcFmt)
  | Highshelf (freq slope gain : PrcFmt)
  | Lowshelf (freq slope gain : PrcFmt)
deriving DecidableEq, Repr

/-- Embeds `struct GainParameters` of `config.rs`. -/
structure GainParameters where
  gain : PrcFmt
  inverted : Bool
deriving DecidableEq, Repr

/-- Embeds `struct DelayParameters` of `config.rs`. -/
structure DelayParameters where
  delay : PrcFmt
deriving DecidableEq, Repr

/-- Embeds `enum Filter` of `config.rs`. -/
inductive Filter where
  | Conv (parameters : ConvParameters)
  | Biquad (parameters : BiquadParameters)
  | Delay (parameters : DelayParameters)
  | Gain (parameters : GainParameters)
deriving DecidableEq, Repr

/-- Embeds `struct MixerChannels` of `config.rs` (the source field `r#in`
is written `«in»`). -/
structure MixerChannels where
  «in» : Nat
  out : Nat
deriving DecidableEq, Repr

/-- Embeds `struct MixerSource` of `config.rs`. -/
structure MixerSource where
  channel : Nat
  gain : PrcFmt
  inverted : Bool
deriving DecidableEq, Repr

/-- Embeds `struct MixerMapping` of `config.rs`. -/
structure MixerMapping where
  dest : Nat
  sources : List MixerSource
deriving DecidableEq, Repr

/-- Embeds `struct Mixer` of `config.rs`. -/
structure Mixer where
  channels : MixerChannels
  mapping : List MixerMapping
deriving DecidableEq, Repr

/-- Embeds `enum PipelineStep` of `config.rs`. -/
inductive PipelineStep where
  | Mixer (name : String)
  | Filter (channel : Nat) (names : List String)
deriving DecidableEq, Repr

/-- Embeds `HashMap<String, V>` as an association list. -/
abbrev StrMap (α : Type) := List (String × α)

/-- Lookup in the association-list embedding of `HashMap`; combines the
source idiom `contains_key` + `get(..).unwrap()` into one operation. -/
def StrMap.get (m : StrMap α) (key : String) : Option α :=
  match m with
  | [] => none
  | entry :: rest => if entry.1 == key then some entry.2 else StrMap.get rest key

/-- Embeds `struct Configuration` of `config.rs`. -/
structure Configuration where
  devices : Devices
  mixers : StrMap Mixer
  filters : StrMap Filter
  pipeline : List PipelineStep
deriving DecidableEq, Repr

/-- Embeds `struct ConfigError`, structured: each constructor corresponds to
one `format!` string of `validate_config`, carrying the formatted data. -/
inductive ConfigError where
  | missingMixer (name : String)
  | mixerWrongInChannels (name : String) (expected found : Nat)
  | nonExistingChannel (channel : Nat)
  | missingFilter (name : String)
  | pipelineOutputMismatch (pipelineOut playbackChannels : Nat)
deriving DecidableEq, Repr

/-- Renders a structured error to the exact message string the source
builds with `format!` in `validate_config`. -/
def ConfigError.desc : ConfigError → String
  | .missingMixer name => "Use of missing mixer \x27" ++ name ++ "\x27"
  | .mixerWrongInChannels name expected found =>
      "Mixer \x27" ++ name ++ "\x27 has wrong number of input channels. Expected "
        ++ toString expected ++ ", found " ++ toString found ++ "."
  | .nonExistingChannel channel => "Use of non existing channel " ++ toString channel
  | .missingFilter name => "Use of missing filter \x27" ++ name ++ "\x27"
  | .pipelineOutputMismatch pipelineOut playbackChannels =>
      "Pipeline outputs " ++ toString pipelineOut ++ " channels, playback device has "
        ++ toString playbackChannels ++ "."

/-- Modelled from the spec: `filters::validate_filter` lives in the `filters`
module, which is not among the provided sources. Spec section 4.3 item 3 asks
that each filter's own parameters be internally consistent: a named biquad
design supplies the parameters that shape requires, and a convolution filter
references an existing coefficient source. In this embedding each typed
parameter variant already carries exactly the fields its shape requires, and
existence of an external coefficient file is outside the embedding, so every
structurally well-formed filter validates. Theorems that depend on filter
validity keep `validate_filter f = .ok ()` as an explicit hypothesis. -/
def validate_filter (filt : Filter) : Except ConfigError Unit :=
  match filt with
  | .Conv _ => .ok ()
  | .Biquad _ => .ok ()
  | .Delay _ => .ok ()
  | .Gain _ => .ok ()

/-- Extracts the channel count of a device, as the two `match` expressions at
the top and bottom of `validate_config` do. -/
def device_channels : Device → Nat
  | .Alsa channels _ _ => channels
  | .Pulse channels _ _ => channels
  | .File channels _ _ => channels

/-- Embeds the inner `for name in names` loop of the `PipelineStep::Filter`
arm of `validate_config`: each name must be a defined filter and pass
`filters::validate_filter`, whose error propagates (the source `?`). -/
def validate_filter_names (filters : StrMap Filter) : List String → Except ConfigError Unit
  | [] => .ok ()
  | name :: rest =>
    match StrMap.get filters name with
    | none => .error (.missingFilter name)
    | some filt =>
      match validate_filter filt with
      | .error e => .error e
      | .ok _ => validate_filter_names filters rest

/-- Embeds one iteration of the `for step in conf.pipeline` loop of
`validate_config`: checks the step against the running channel count and
returns the updated running count. Note the source comparison for a filter
step is `channel > num_channels`, written here exactly as in the source. -/
def validate_step (conf : Configuration) (num_channels : Nat) : PipelineStep → Except ConfigError Nat
  | .Mixer name =>
    match StrMap.get conf.mixers name with
    | none => .error (.missingMixer name)
    | some mixer =>
      if mixer.channels.«in» ≠ num_channels then
        .error (.mixerWrongInChannels name num_channels mixer.channels.«in»)
      else
        .ok mixer.channels.out
  | .Filter channel names =>
    if channel > num_channels then
      .error (.nonExistingChannel channel)
    else
      match validate_filter_names conf.filters names with
      | .error e => .error e
      | .ok _ => .ok num_channels

/-- Embeds the `for step in conf.pipeline` loop of `validate_config`,
threading the mutable `num_channels` through the recursion and returning its
final value. -/
def validate_pipeline (conf : Configuration) (num_channels : Nat) : List PipelineStep → Except ConfigError Nat
  | [] => .ok num_channels
  | step :: rest =>
    match validate_step conf num_channels step with
    | .error e => .error e
    | .ok next => validate_pipeline conf next rest

/-- Embeds `validate_config` of `config.rs`: start from the capture device's
channel count, walk the pipeline, then require the final running count to
equal the playback device's channel count. -/
def validate_config (conf : Configuration) : Except ConfigError Unit :=
  match validate_pipeline conf (device_channels conf.devices.capture) conf.pipeline with
  | .error e => .error e
  | .ok num_channels =>
    let num_channels_out := device_channels conf.devices.playback
    if num_channels ≠ num_channels_out then
      .error (.pipelineOutputMismatch num_channels num_channels_out)
    else
      .ok ()

end config

namespace audiodevice

/-- Embeds `std::time::Instant` as an abstract monotone tick. -/
abbrev Instant := Nat

/-- Embeds `struct AudioChunk` of `audiodevice.rs`. -/
structure AudioChunk where
  frames : Nat
  channels : Nat
  maxval : PrcFmt
  minval : PrcFmt
  timestamp : Instant
  valid_frames : Nat
  waveforms : List (List PrcFmt)
deriving DecidableEq, Repr

/-- Embeds `AudioChunk::new`. The source indexes `waveforms[0]` to derive the
frame count, which panics on an empty collection; the panic is modelled as
`none`. `Instant::now()` is an effect, so the current tick `now` is passed in
by the caller. -/
def AudioChunk.new (now : Instant) (waveforms : List (List PrcFmt))
    (maxval minval : PrcFmt) (valid_frames : Nat) : Option AudioChunk :=
  match waveforms with
  | [] => none
  | w0 :: rest =>
    some {
      frames := w0.length
      channels := (w0 :: rest).length
      maxval := maxval
      minval := minval
      timestamp := now
      valid_frames := valid_frames
      waveforms := w0 :: rest
    }

/-- Embeds `AudioChunk::from`: copy the parent chunk's metadata, recompute
only `channels` from the new waveform collection. -/
def AudioChunk.«from» (chunk : AudioChunk) (waveforms : List (List PrcFmt)) : AudioChunk :=
  { frames := chunk.frames
    channels := waveforms.length
    maxval := chunk.maxval
    minval := chunk.minval
    timestamp := chunk.timestamp
    valid_frames := chunk.valid_frames
    waveforms := waveforms }

end audiodevice

namespace config

/-- Spec wording (section 3, Mixer definition): every source channel index is
strictly below the declared input channel count and every mapped destination
is strictly below the declared output channel count. Stated from the spec for
comparison with what the code checks. -/
abbrev mixer_mapping_ok (m : Mixer) : Prop :=
  ∀ mapping ∈ m.mapping, mapping.dest < m.channels.out ∧
    ∀ src ∈ mapping.sources, src.channel < m.channels.«in»

/-- Walking an appended pipeline first walks the prefix, then continues from
the running count the prefix produced. -/
theorem validate_pipeline_append (conf : Configuration) (n : Nat) (pre rest : List PipelineStep) :
    validate_pipeline conf n (pre ++ rest) =
      match validate_pipeline conf n pre with
      | .error e => .error e
      | .ok m => validate_pipeline conf m rest := by
  induction pre generalizing n with
  | nil => rfl
  | cons s pre ih =>
    simp only [List.cons_append, validate_pipeline]
    cases validate_step conf n s with
    | error e => rfl
    | ok m => exact ih m

/-- Checking an appended name list first checks the prefix, then the rest. -/
theorem validate_filter_names_append (filters : StrMap Filter) (as bs : List String) :
    validate_filter_names filters (as ++ bs) =
      match validate_filter_names filters as with
      | .error e => .error e
      | .ok _ => validate_filter_names filters bs := by
  induction as with
  | nil => rfl
  | cons name as ih =>
    cases hget : StrMap.get filters name with
    | none => simp [validate_filter_names, hget]
    | some filt =>
      cases hv : validate_filter filt with
      | error e => simp [validate_filter_names, hget, hv]
      | ok u => simp [validate_filter_names, hget, hv, ih]

/-- Replaces every mixer's `mapping` field, leaving the channel declarations
and the rest of the configuration unchanged. -/
def map_mixer_mappings (f : String → Mixer → List MixerMapping) (conf : Configuration) : Configuration :=
  { conf with
    mixers := conf.mixers.map fun entry => (entry.1, { entry.2 with mapping := f entry.1 entry.2 }) }

/-- Lookup commutes with rewriting every mixer's mapping. -/
theorem get_map_mappings (f : String → Mixer → List MixerMapping) (m : StrMap Mixer) (key : String) :
    StrMap.get (m.map fun entry => (entry.1, { entry.2 with mapping := f entry.1 entry.2 })) key
      = (StrMap.get m key).map fun mix => { mix with mapping := f key mix } := by
  induction m with
  | nil => rfl
  | cons entry rest ih =>
    simp only [List.map_cons, StrMap.get]
    by_cases h : entry.1 == key
    · have hk : entry.1 = key := beq_iff_eq.mp h
      simp [h, hk]
    · simp [h, ih]

/-- The pipeline walk never reads mixer mappings. -/
theorem validate_pipeline_map_mappings (f : String → Mixer → List MixerMapping)
    (conf : Configuration) (n : Nat) (steps : List PipelineStep) :
    validate_pipeline (map_mixer_mappings f conf) n steps = validate_pipeline conf n steps := by
  induction steps generalizing n with
  | nil => rfl
  | cons s rest ih =>
    cases s with
    | Mixer name =>
      have hmix : StrMap.get (map_mixer_mappings f conf).mixers name
          = (StrMap.get conf.mixers name).map fun mix => { mix with mapping := f name mix } :=
        get_map_mappings f conf.mixers name
      cases hget : StrMap.get conf.mixers name with
      | none => simp [validate_pipeline, validate_step, hmix, hget]
      | some mixer =>
        by_cases h : mixer.channels.«in» ≠ n
        · simp [validate_pipeline, validate_step, hmix, hget, h]
        · simp [validate_pipeline, validate_step, hmix, hget, h, ih]
    | Filter channel names =>
      simp only [validate_pipeline, validate_step]
      by_cases h : channel > n
      · simp [h]
      · have hf : (map_mixer_mappings f conf).filters = conf.filters := rfl
        simp only [hf, h, if_false]
        cases validate_filter_names conf.filters names with
        | error e => simp
        | ok u => simp [ih]

end config

/-- Configuration exercising the off-by-one: capture has 2 channels (indices
0 and 1) and the filter step addresses channel 2. -/
def confC1 : config.Configuration :=
  { devices :=
      { samplerate := 44100
        buffersize := 1024
        silence_threshold := 0
        silence_timeout := 0
        capture := .File 2 "cap.raw" .S16LE
        playback := .File 2 "pb.raw" .S16LE }
    mixers := []
    filters := [("g", .Gain { gain := 0, inverted := false })]
    pipeline := [.Filter 2 ["g"]] }

/-- Same configuration with the filter step addressing channel 3. -/
def confC1b : config.Configuration :=
  { confC1 with pipeline := [.Filter 3 ["g"]] }

/-- Claim C1: a pipeline Filter step whose channel index is not strictly less
than the running channel count is rejected; in particular index = count is
rejected. The code checks `channel > num_channels`, so index 2 with running
count 2 is accepted while index 3 is rejected: the claim (and the spec's
`< running count`, matching the error text about a non existing channel)
describes the intent, and the code has an off-by-one. -/
theorem C1_filter_channel_equal_count_accepted :
    config.validate_config confC1 = .ok () ∧
    config.validate_config confC1b = .error (.nonExistingChannel 3) :=
  ⟨rfl, rfl⟩

/-- Mixer whose mapping is out of range on both sides: destination 5 with
declared output count 2, source channel 7 with declared input count 2. -/
def mixerC2 : config.Mixer :=
  { channels := { «in» := 2, out := 2 }
    mapping := [{ dest := 5, sources := [{ channel := 7, gain := 0, inverted := false }] }] }

/-- Configuration whose pipeline uses `mixerC2`. -/
def confC2 : config.Configuration :=
  { devices :=
      { samplerate := 44100
        buffersize := 1024
        silence_threshold := 0
        silence_timeout := 0
        capture := .File 2 "cap.raw" .S16LE
        playback := .File 2 "pb.raw" .S16LE }
    mixers := [("m", mixerC2)]
    filters := []
    pipeline := [.Mixer "m"] }

/-- Claim C2 counterexample: validate_config accepts a configuration whose
pipeline uses a mixer with a destination index not below the declared output
count and a source channel index not below the declared input count. -/
theorem C2_counterexample :
    config.validate_config confC2 = .ok () ∧
    confC2.pipeline = [.Mixer "m"] ∧
    config.StrMap.get confC2.mixers "m" = some mixerC2 ∧
    ¬ config.mixer_mapping_ok mixerC2 :=
  ⟨rfl, rfl, rfl, by decide⟩

/-- Claim C2 (amended): validate_config never inspects mixer mappings — its
result is unchanged when every mixer's mapping is replaced arbitrarily — so a
configuration it accepts may use mixers whose source channel indices are not
below the declared input count or whose destinations are not below the
declared output count. -/
theorem C2_mapping_irrelevant (f : String → config.Mixer → List config.MixerMapping)
    (conf : config.Configuration) :
    config.validate_config (config.map_mixer_mappings f conf) = config.validate_config conf := by
  simp only [config.validate_config]
  rw [config.validate_pipeline_map_mappings]
  rfl

namespace audiodevice

/-- Spec wording (section 8, Chunk invariant): channels equals the waveform
count, every channel sequence has length `frames`, and `valid_frames` is at
most `frames`. Stated from the spec for comparison with what the
constructors establish. -/
abbrev chunk_invariant (c : AudioChunk) : Prop :=
  c.channels = c.waveforms.length ∧
    (∀ w ∈ c.waveforms, w.length = c.frames) ∧
    c.valid_frames ≤ c.frames

end audiodevice

/-- Claim C3 counterexample: `AudioChunk::new` accepts waveforms of unequal
lengths and a `valid_frames` above `frames`, so the constructed chunk
violates the claimed invariant (its second channel has length 1 while
`frames` is 2, and `valid_frames` is 5). -/
theorem C3_counterexample :
    ∃ c, audiodevice.AudioChunk.new 0 [[0, 0], [1]] 0 0 5 = some c ∧
      ¬ audiodevice.chunk_invariant c :=
  ⟨_, rfl, by decide⟩

/-- Claim C3 (amended): both constructors establish `channels =
waveforms.len()` (and `new` derives `frames` from the first channel), but
neither enforces that every inner sequence has length `frames` nor that
`valid_frames ≤ frames`. -/
theorem C3_constructors_channel_count :
    (∀ (now : audiodevice.Instant) (waveforms : List (List PrcFmt)) (maxval minval : PrcFmt)
        (valid_frames : Nat) (c : audiodevice.AudioChunk),
        audiodevice.AudioChunk.new now waveforms maxval minval valid_frames = some c →
        c.channels = c.waveforms.length) ∧
    (∀ (chunk : audiodevice.AudioChunk) (waveforms : List (List PrcFmt)),
        (audiodevice.AudioChunk.«from» chunk waveforms).channels = waveforms.length) := by
  constructor
  · intro now waveforms maxval minval valid_frames c h
    cases waveforms with
    | nil => exact absurd h (by simp [audiodevice.AudioChunk.new])
    | cons w0 rest =>
      cases Option.some.inj h
      rfl
  · intro chunk waveforms
    rfl

/-- Concrete chunk produced by `AudioChunk::new` for the C3 witness. -/
def chunkW3 : audiodevice.AudioChunk :=
  { frames := 1
    channels := 1
    maxval := 0
    minval := 0
    timestamp := 0
    valid_frames := 0
    waveforms := [[0]] }

/-- Witness for claim C3's amended theorem at a concrete chunk. -/
theorem C3_witness :
    chunkW3.channels = chunkW3.waveforms.length ∧
    (audiodevice.AudioChunk.«from» chunkW3 [[0], [0]]).channels = 2 :=
  ⟨C3_constructors_channel_count.1 0 [[0]] 0 0 0 chunkW3 rfl,
   C3_constructors_channel_count.2 chunkW3 [[0], [0]]⟩

/-- Claim C7: a chunk built by `AudioChunk::from` keeps the parent chunk's
timestamp, valid_frames, maxval and minval, and recomputes channels as the
length of the new waveform collection. -/
theorem C7_from_metadata (chunk : audiodevice.AudioChunk) (waveforms : List (List PrcFmt)) :
    (audiodevice.AudioChunk.«from» chunk waveforms).timestamp = chunk.timestamp ∧
    (audiodevice.AudioChunk.«from» chunk waveforms).valid_frames = chunk.valid_frames ∧
    (audiodevice.AudioChunk.«from» chunk waveforms).maxval = chunk.maxval ∧
    (audiodevice.AudioChunk.«from» chunk waveforms).minval = chunk.minval ∧
    (audiodevice.AudioChunk.«from» chunk waveforms).channels = waveforms.length :=
  ⟨rfl, rfl, rfl, rfl, rfl⟩

/-- Claim C8: `AudioChunk::new` panics (modelled as `none`) on an empty
waveform collection, because `frames` is derived from `waveforms[0]`; on any
non-empty collection it succeeds and derives `frames` from the first
channel's length. -/
theorem C8_new_empty_fails :
    (∀ (now : audiodevice.Instant) (maxval minval : PrcFmt) (valid_frames : Nat),
        audiodevice.AudioChunk.new now [] maxval minval valid_frames = none) ∧
    (∀ (now : audiodevice.Instant) (w0 : List PrcFmt) (rest : List (List PrcFmt))
        (maxval minval : PrcFmt) (valid_frames : Nat),
        ∃ c, audiodevice.AudioChunk.new now (w0 :: rest) maxval minval valid_frames = some c ∧
          c.frames = w0.length) :=
  ⟨fun _ _ _ _ => rfl, fun _ _ _ _ _ _ => ⟨_, rfl, rfl⟩⟩

/-- Claim C10: a chunk built by `AudioChunk::from` inherits the parent's
`frames` field unchanged, whatever the lengths of the new waveforms are —
it is never recomputed from the new data. -/
theorem C10_from_frames_inherited (chunk : audiodevice.AudioChunk)
    (waveforms : List (List PrcFmt)) :
    (audiodevice.AudioChunk.«from» chunk waveforms).frames = chunk.frames :=
  rfl

/-- Configuration of the spec's completeness example: capture has 2 channels,
the pipeline is a 2-to-1 mixer followed by a gain filter on channel 0, and
playback has 1 channel. -/
def confC5ok : config.Configuration :=
  { devices :=
      { samplerate := 44100
        buffersize := 1024
        silence_threshold := 0
        silence_timeout := 0
        capture := .File 2 "cap.raw" .S16LE
        playback := .File 1 "pb.raw" .S16LE }
    mixers :=
      [("m2to1",
        { channels := { «in» := 2, out := 1 }
          mapping :=
            [{ dest := 0
               sources :=
                 [{ channel := 0, gain := -3, inverted := false },
                  { channel := 1, gain := -3, inverted := false }] }] })]
    filters := [("gain1", .Gain { gain := -3, inverted := false })]
    pipeline := [.Mixer "m2to1", .Filter 0 ["gain1"]] }

/-- The same configuration with a 2-channel playback device. -/
def confC5bad : config.Configuration :=
  { confC5ok with
    devices := { confC5ok.devices with playback := .File 2 "pb.raw" .S16LE } }

/-- Claim C5: with a 2-channel capture, pipeline [2-to-1 mixer, filter on
channel 0 using a defined valid filter] and a 1-channel playback,
validate_config succeeds; changing playback to 2 channels makes it fail
reporting the final mismatch (pipeline outputs 1, playback has 2). -/
theorem C5_completeness_example :
    config.validate_config confC5ok = .ok () ∧
    config.validate_config confC5bad = .error (.pipelineOutputMismatch 1 2) :=
  ⟨rfl, rfl⟩

namespace config

/-- Spec wording (section 4.3, algorithm): the running channel count after one
step — a mixer step replaces it with the mixer's declared output count, a
filter step leaves it unchanged. -/
def next_channels (conf : Configuration) (num_channels : Nat) : PipelineStep → Nat
  | .Mixer name =>
    match StrMap.get conf.mixers name with
    | some mixer => mixer.channels.out
    | none => num_channels
  | .Filter _ _ => num_channels

/-- The running channel count after a whole step sequence. -/
def channels_after (conf : Configuration) (num_channels : Nat) : List PipelineStep → Nat
  | [] => num_channels
  | step :: rest => channels_after conf (next_channels conf num_channels step) rest

/-- Spec wording (section 4.3, items 1-3): a step is consistent with the
running channel count when a mixer step names a defined mixer whose declared
input count equals the running count, and a filter step addresses a channel
strictly below the running count naming only defined filters that pass their
own parameter validation. -/
def step_consistent (conf : Configuration) (num_channels : Nat) : PipelineStep → Prop
  | .Mixer name =>
    ∃ mixer, StrMap.get conf.mixers name = some mixer ∧ mixer.channels.«in» = num_channels
  | .Filter channel names =>
    channel < num_channels ∧
      ∀ name ∈ names, ∃ filt, StrMap.get conf.filters name = some filt ∧ validate_filter filt = .ok ()

/-- Consistency of a step sequence end to end, threading the running count. -/
def consistent_from (conf : Configuration) (num_channels : Nat) : List PipelineStep → Prop
  | [] => True
  | step :: rest =>
    step_consistent conf num_channels step ∧
      consistent_from conf (next_channels conf num_channels step) rest

/-- A name list of defined, individually valid filters checks out. -/
theorem filter_names_ok (filters : StrMap Filter) (names : List String)
    (h : ∀ name ∈ names, ∃ filt, StrMap.get filters name = some filt ∧ validate_filter filt = .ok ()) :
    validate_filter_names filters names = .ok () := by
  induction names with
  | nil => rfl
  | cons name rest ih =>
    obtain ⟨filt, hget, hv⟩ := h name (List.mem_cons_self name rest)
    simp only [validate_filter_names, hget, hv]
    exact ih fun nm hm => h nm (List.mem_cons_of_mem _ hm)

/-- A consistent step sequence validates, producing the threaded count. -/
theorem consistent_ok (conf : Configuration) (steps : List PipelineStep) (n : Nat)
    (h : consistent_from conf n steps) :
    validate_pipeline conf n steps = .ok (channels_after conf n steps) := by
  induction steps generalizing n with
  | nil => rfl
  | cons step rest ih =>
    obtain ⟨hs, hrest⟩ := h
    cases step with
    | Mixer name =>
      obtain ⟨mixer, hget, hin⟩ := hs
      rw [show next_channels conf n (.Mixer name) = mixer.channels.out by
        simp [next_channels, hget]] at hrest
      simp only [validate_pipeline, validate_step, channels_after, next_channels, hget, hin]
      simp only [ne_eq, not_true_eq_false, if_false, ite_false]
      exact ih mixer.channels.out hrest
    | Filter channel names =>
      obtain ⟨hchan, hnames⟩ := hs
      have hnot : ¬ channel > n := by omega
      have hok := filter_names_ok conf.filters names hnames
      rw [show next_channels conf n (.Filter channel names) = n from rfl] at hrest
      simp only [validate_pipeline, validate_step, channels_after, next_channels, hnot, if_false,
        hok, ite_false]
      exact ih n hrest

/-- A pipeline-walk error is the validator's verdict. -/
theorem validate_config_of_pipeline_error (conf : Configuration) (e : ConfigError)
    (h : validate_pipeline conf (device_channels conf.devices.capture) conf.pipeline = .error e) :
    validate_config conf = .error e := by
  simp [validate_config, h]

/-- Fail-fast: when every step before a given step validates and that step
errors, the whole validator returns exactly that error, whatever follows. -/
theorem validate_config_first_error (conf : Configuration) (pre : List PipelineStep)
    (step : PipelineStep) (rest : List PipelineStep) (n : Nat) (e : ConfigError)
    (hpipe : conf.pipeline = pre ++ step :: rest)
    (hpre : validate_pipeline conf (device_channels conf.devices.capture) pre = .ok n)
    (hstep : validate_step conf n step = .error e) :
    validate_config conf = .error e := by
  apply validate_config_of_pipeline_error
  rw [hpipe, validate_pipeline_append, hpre]
  simp [validate_pipeline, hstep]

/-- Reference well-formedness of one step: a mixer step names a defined mixer,
a filter step names only defined filters. -/
def step_refs_ok (conf : Configuration) : PipelineStep → Prop
  | .Mixer name => (StrMap.get conf.mixers name).isSome
  | .Filter _ names => ∀ name ∈ names, (StrMap.get conf.filters name).isSome

/-- A name list that checks out only names defined filters. -/
theorem filter_names_ok_mem (filters : StrMap Filter) :
    ∀ (names : List String), validate_filter_names filters names = .ok () →
      ∀ name ∈ names, (StrMap.get filters name).isSome := by
  intro names
  induction names with
  | nil => intro _ name hm; cases hm
  | cons nm rest ih =>
    intro h name hm
    cases hget : StrMap.get filters nm with
    | none => simp [validate_filter_names, hget] at h
    | some filt =>
      cases hv : validate_filter filt with
      | error e => simp [validate_filter_names, hget, hv] at h
      | ok u =>
        simp only [validate_filter_names, hget, hv] at h
        rcases List.mem_cons.mp hm with rfl | hm2
        · simp [hget]
        · exact ih h name hm2

/-- A step sequence that validates only references defined mixers/filters. -/
theorem pipeline_ok_refs (conf : Configuration) :
    ∀ (steps : List PipelineStep) (n m : Nat),
      validate_pipeline conf n steps = .ok m →
      ∀ step ∈ steps, step_refs_ok conf step := by
  intro steps
  induction steps with
  | nil => intro n m _ step hm; cases hm
  | cons s rest ih =>
    intro n m h step hm
    cases hs : validate_step conf n s with
    | error e => simp [validate_pipeline, hs] at h
    | ok next =>
      simp only [validate_pipeline, hs] at h
      rcases List.mem_cons.mp hm with rfl | hm2
      · cases step with
        | Mixer name =>
          cases hget : StrMap.get conf.mixers name with
          | none => simp [validate_step, hget] at hs
          | some mixer => simp [step_refs_ok, hget]
        | Filter channel names =>
          by_cases hc : channel > n
          · simp [validate_step, hc] at hs
          · cases hnames : validate_filter_names conf.filters names with
            | error e => simp [validate_step, hc, hnames] at hs
            | ok u =>
              cases u
              exact filter_names_ok_mem conf.filters names hnames
      · exact ih next m h step hm2

/-- A needle string occurs contiguously inside a haystack string. -/
abbrev string_contains (needle haystack : String) : Prop := needle.data <:+: haystack.data

/-- The rendered missing-mixer message contains the missing name. -/
theorem missingMixer_desc_contains (name : String) :
    string_contains name (ConfigError.missingMixer name).desc :=
  ⟨"Use of missing mixer \x27".data, "\x27".data, by
    simp [ConfigError.desc, String.data_append]⟩

/-- The rendered missing-filter message contains the missing name. -/
theorem missingFilter_desc_contains (name : String) :
    string_contains name (ConfigError.missingFilter name).desc :=
  ⟨"Use of missing filter \x27".data, "\x27".data, by
    simp [ConfigError.desc, String.data_append]⟩

end config

/-- Claim C4: a Mixer step whose declared input count differs from the
running channel count at that step (the count threaded to it by the walk)
makes validation fail with the error naming that mixer and the expected and
found counts; a graph whose steps are all consistent end to end, with its
final count matching the playback device, validates; and a Mixer step
replaces the running count with the mixer's declared output count. -/
theorem C4_validator_soundness :
    (∀ (conf : config.Configuration) (pre : List config.PipelineStep) (name : String)
        (rest : List config.PipelineStep) (n : Nat) (mixer : config.Mixer),
        conf.pipeline = pre ++ .Mixer name :: rest →
        config.validate_pipeline conf (config.device_channels conf.devices.capture) pre = .ok n →
        config.StrMap.get conf.mixers name = some mixer →
        mixer.channels.«in» ≠ n →
        config.validate_config conf = .error (.mixerWrongInChannels name n mixer.channels.«in»)) ∧
    (∀ conf : config.Configuration,
        config.consistent_from conf (config.device_channels conf.devices.capture) conf.pipeline →
        config.channels_after conf (config.device_channels conf.devices.capture) conf.pipeline
          = config.device_channels conf.devices.playback →
        config.validate_config conf = .ok ()) ∧
    (∀ (conf : config.Configuration) (n : Nat) (name : String)
        (rest : List config.PipelineStep) (mixer : config.Mixer),
        config.StrMap.get conf.mixers name = some mixer →
        mixer.channels.«in» = n →
        config.validate_pipeline conf n (.Mixer name :: rest)
          = config.validate_pipeline conf mixer.channels.out rest) := by
  refine ⟨?_, ?_, ?_⟩
  · intro conf pre name rest n mixer hpipe hpre hget hne
    exact config.validate_config_first_error conf pre (.Mixer name) rest n _ hpipe hpre
      (by simp [config.validate_step, hget, hne])
  · intro conf hcons hafter
    simp [config.validate_config, config.consistent_ok conf conf.pipeline _ hcons, hafter]
  · intro conf n name rest mixer hget hin
    simp [config.validate_pipeline, config.validate_step, hget, hin]

/-- Mixer with declared input count 3 for a 2-channel capture. -/
def mixerW4a : config.Mixer :=
  { channels := { «in» := 3, out := 1 }, mapping := [] }

/-- Configuration whose only pipeline step uses `mixerW4a`, mismatching the
2-channel capture device. -/
def confW4a : config.Configuration :=
  { devices :=
      { samplerate := 44100
        buffersize := 1024
        silence_threshold := 0
        silence_timeout := 0
        capture := .File 2 "cap.raw" .S16LE
        playback := .File 1 "pb.raw" .S16LE }
    mixers := [("m", mixerW4a)]
    filters := []
    pipeline := [.Mixer "m"] }

/-- Mixer with declared input count 2 and output count 1. -/
def mixerW4b : config.Mixer :=
  { channels := { «in» := 2, out := 1 }
    mapping := [{ dest := 0, sources := [{ channel := 0, gain := 0, inverted := false }] }] }

/-- End-to-end consistent configuration: 2-channel capture, 2-to-1 mixer,
gain filter on channel 0, 1-channel playback. -/
def confW4b : config.Configuration :=
  { devices :=
      { samplerate := 44100
        buffersize := 1024
        silence_threshold := 0
        silence_timeout := 0
        capture := .File 2 "cap.raw" .S16LE
        playback := .File 1 "pb.raw" .S16LE }
    mixers := [("mm", mixerW4b)]
    filters := [("g", .Gain { gain := 0, inverted := false })]
    pipeline := [.Mixer "mm", .Filter 0 ["g"]] }

/-- Witness for claim C4's theorem at concrete configurations. -/
theorem C4_witness :
    config.validate_config confW4a = .error (.mixerWrongInChannels "m" 2 3) ∧
    config.validate_config confW4b = .ok () ∧
    config.validate_pipeline confW4b 2 [.Mixer "mm"] = config.validate_pipeline confW4b 1 [] :=
  ⟨C4_validator_soundness.1 confW4a [] "m" [] 2 mixerW4a rfl rfl rfl (by decide),
   C4_validator_soundness.2.1 confW4b
     (by
       refine ⟨⟨mixerW4b, rfl, rfl⟩, ⟨?_, ?_⟩, trivial⟩
       · decide
       · intro nm hm
         rw [List.mem_singleton] at hm
         subst hm
         exact ⟨.Gain { gain := 0, inverted := false }, rfl, rfl⟩)
     rfl,
   C4_validator_soundness.2.2 confW4b 2 "mm" [] mixerW4b rfl rfl⟩

/-- Claim C9: validation is fail-fast — when every step before a given step
validates (producing running count `n`) and that step produces error `e`,
validate_config returns exactly `e`, whatever invalid steps follow. -/
theorem C9_first_error_wins (conf : config.Configuration) (pre : List config.PipelineStep)
    (step : config.PipelineStep) (rest : List config.PipelineStep) (n : Nat)
    (e : config.ConfigError)
    (hpipe : conf.pipeline = pre ++ step :: rest)
    (hpre : config.validate_pipeline conf (config.device_channels conf.devices.capture) pre = .ok n)
    (hstep : config.validate_step conf n step = .error e) :
    config.validate_config conf = .error e :=
  config.validate_config_first_error conf pre step rest n e hpipe hpre hstep

/-- Configuration with two invalid steps: a filter on non-existing channel 5
followed by a use of an undefined mixer. -/
def confW9 : config.Configuration :=
  { devices :=
      { samplerate := 44100
        buffersize := 1024
        silence_threshold := 0
        silence_timeout := 0
        capture := .File 2 "cap.raw" .S16LE
        playback := .File 2 "pb.raw" .S16LE }
    mixers := []
    filters := []
    pipeline := [.Filter 5 [], .Mixer "nope"] }

/-- Witness for claim C9's theorem: with two invalid steps, the error of the
first one is returned (and the second step is indeed also invalid). -/
theorem C9_witness :
    config.validate_config confW9 = .error (.nonExistingChannel 5) ∧
    config.StrMap.get confW9.mixers "nope" = none :=
  ⟨C9_first_error_wins confW9 [] (.Filter 5 []) [.Mixer "nope"] 2 (.nonExistingChannel 5)
      rfl rfl rfl,
   rfl⟩

/-- Configuration whose pipeline names the undefined mixer "missing" but
fails earlier, at a filter step on non-existing channel 99. -/
def confC6 : config.Configuration :=
  { devices :=
      { samplerate := 44100
        buffersize := 1024
        silence_threshold := 0
        silence_timeout := 0
        capture := .File 2 "cap.raw" .S16LE
        playback := .File 2 "pb.raw" .S16LE }
    mixers := []
    filters := []
    pipeline := [.Filter 99 [], .Mixer "missing"] }

/-- Claim C6 counterexample: this pipeline contains a Mixer step naming the
undefined mixer "missing", yet validate_config fails with the earlier
non-existing-channel error, whose message does not contain "missing". -/
theorem C6_counterexample :
    confC6.pipeline = [.Filter 99 [], .Mixer "missing"] ∧
    config.StrMap.get confC6.mixers "missing" = none ∧
    config.validate_config confC6 = .error (.nonExistingChannel 99) ∧
    ¬ config.string_contains "missing" (config.ConfigError.desc (.nonExistingChannel 99)) :=
  ⟨rfl, rfl, rfl, by decide⟩

/-- Claim C6 (amended): a pipeline step naming an undefined mixer or filter
always makes validate_config fail; the error message contains that missing
name when validation reaches the reference, that is, when every earlier step
(and, for a filter step, the channel bound and every earlier name in that
step) validates. -/
theorem C6_missing_reference :
    (∀ (conf : config.Configuration) (pre : List config.PipelineStep) (name : String)
        (rest : List config.PipelineStep),
        conf.pipeline = pre ++ .Mixer name :: rest →
        config.StrMap.get conf.mixers name = none →
        ∃ e, config.validate_config conf = .error e) ∧
    (∀ (conf : config.Configuration) (pre : List config.PipelineStep) (name : String)
        (rest : List config.PipelineStep) (n : Nat),
        conf.pipeline = pre ++ .Mixer name :: rest →
        config.validate_pipeline conf (config.device_channels conf.devices.capture) pre = .ok n →
        config.StrMap.get conf.mixers name = none →
        config.validate_config conf = .error (.missingMixer name) ∧
          config.string_contains name (config.ConfigError.missingMixer name).desc) ∧
    (∀ (conf : config.Configuration) (pre : List config.PipelineStep) (channel : Nat)
        (names : List String) (name : String) (rest : List config.PipelineStep),
        conf.pipeline = pre ++ .Filter channel names :: rest →
        name ∈ names →
        config.StrMap.get conf.filters name = none →
        ∃ e, config.validate_config conf = .error e) ∧
    (∀ (conf : config.Configuration) (pre : List config.PipelineStep) (channel : Nat)
        (names1 : List String) (name : String) (names2 : List String)
        (rest : List config.PipelineStep) (n : Nat),
        conf.pipeline = pre ++ .Filter channel (names1 ++ name :: names2) :: rest →
        config.validate_pipeline conf (config.device_channels conf.devices.capture) pre = .ok n →
        ¬ channel > n →
        config.validate_filter_names conf.filters names1 = .ok () →
        config.StrMap.get conf.filters name = none →
        config.validate_config conf = .error (.missingFilter name) ∧
          config.string_contains name (config.ConfigError.missingFilter name).desc) := by
  refine ⟨?_, ?_, ?_, ?_⟩
  · intro conf pre name rest hpipe hget
    cases hp : config.validate_pipeline conf (config.device_channels conf.devices.capture)
        conf.pipeline with
    | error e => exact ⟨e, config.validate_config_of_pipeline_error conf e hp⟩
    | ok m =>
      have hrefs := config.pipeline_ok_refs conf conf.pipeline _ m hp (.Mixer name)
        (by rw [hpipe]; exact List.mem_append_right _ (List.mem_cons_self _ _))
      simp [config.step_refs_ok, hget] at hrefs
  · intro conf pre name rest n hpipe hpre hget
    refine ⟨?_, config.missingMixer_desc_contains name⟩
    exact config.validate_config_first_error conf pre (.Mixer name) rest n _ hpipe hpre
      (by simp [config.validate_step, hget])
  · intro conf pre channel names name rest hpipe hmem hget
    cases hp : config.validate_pipeline conf (config.device_channels conf.devices.capture)
        conf.pipeline with
    | error e => exact ⟨e, config.validate_config_of_pipeline_error conf e hp⟩
    | ok m =>
      have hrefs := config.pipeline_ok_refs conf conf.pipeline _ m hp (.Filter channel names)
        (by rw [hpipe]; exact List.mem_append_right _ (List.mem_cons_self _ _))
      have := hrefs name hmem
      simp [hget] at this
  · intro conf pre channel names1 name names2 rest n hpipe hpre hc hnames1 hget
    refine ⟨?_, config.missingFilter_desc_contains name⟩
    refine config.validate_config_first_error conf pre (.Filter channel (names1 ++ name :: names2))
      rest n _ hpipe hpre ?_
    simp only [config.validate_step, hc, if_false, ite_false]
    rw [config.validate_filter_names_append, hnames1]
    simp [config.validate_filter_names, hget]

/-- Configuration using the undefined mixer "missing" as its first step. -/
def confW6m : config.Configuration :=
  { devices :=
      { samplerate := 44100
        buffersize := 1024
        silence_threshold := 0
        silence_timeout := 0
        capture := .File 2 "cap.raw" .S16LE
        playback := .File 2 "pb.raw" .S16LE }
    mixers := []
    filters := []
    pipeline := [.Mixer "missing"] }

/-- Configuration using the undefined filter "nofilt" as its first step. -/
def confW6f : config.Configuration :=
  { devices :=
      { samplerate := 44100
        buffersize := 1024
        silence_threshold := 0
        silence_timeout := 0
        capture := .File 2 "cap.raw" .S16LE
        playback := .File 2 "pb.raw" .S16LE }
    mixers := []
    filters := []
    pipeline := [.Filter 0 ["nofilt"]] }

/-- Witness for claim C6's amended theorem at concrete configurations. -/
theorem C6_witness :
    (∃ e, config.validate_config confW6m = .error e) ∧
    (config.validate_config confW6m = .error (.missingMixer "missing") ∧
      config.string_contains "missing" (config.ConfigError.missingMixer "missing").desc) ∧
    (∃ e, config.validate_config confW6f = .error e) ∧
    (config.validate_config confW6f = .error (.missingFilter "nofilt") ∧
      config.string_contains "nofilt" (config.ConfigError.missingFilter "nofilt").desc) :=
  ⟨C6_missing_reference.1 confW6m [] "missing" [] rfl rfl,
   C6_missing_reference.2.1 confW6m [] "missing" [] 2 rfl rfl rfl,
   C6_missing_reference.2.2.1 confW6f [] 0 ["nofilt"] "nofilt" [] rfl (by decide) rfl,
   C6_missing_reference.2.2.2 confW6f [] 0 [] "nofilt" [] [] 2 rfl rfl (by decide) rfl rfl⟩
